import Mathlib

set_option maxRecDepth 8192

/-!
Verification of the Detonation Record Pipeline (src/final.py) and the
mortgage script (src/morgage.py).

Shallow embedding conventions:
- A pandas DataFrame is a `List` of row structures; column operations are
  modelled row-wise (they are elementwise in the source).
- A float cell that may be NaN (missing) is `Option ℚ`; `none` is NaN/NaT.
- Machine floats are modelled as exact rationals `ℚ`.
- Fallible operations return `Except`; a raised Python exception is `.error`.
-/

namespace CS230

/-! ## Data dictionaries (src/final.py lines 18-52), verbatim key/value pairs -/

def COUNTRIES : List (String × String) := [
  ("USA", "United States"),
  ("USSR", "Soviet Union"),
  ("UK", "United Kingdom"),
  ("FRANCE", "France"),
  ("CHINA", "China"),
  ("INDIA", "India")]

def PURPOSE_DICT : List (String × String) := [
  ("Combat", "Combat"),
  ("Wr", "Weapons development"),
  ("We", "Weapons Evaluation"),
  ("Fms", "Soviet Phenomenon Study"),
  ("Me", "Military Exercise"),
  ("Pne", "Peaceful Nuclear Explosion"),
  ("Sam", "Soviet Emergency Test"),
  ("Se", "Safety Testing"),
  ("Transp", "Transportation purposes")]

def TYPE_DICT : List (String × String) := [
  ("Atmosph", "Atmospheric"),
  ("Airdrop", "Airplane Deployed"),
  ("Tower", "Constructed Tower"),
  ("Surface", "Ground Level"),
  ("UW", "Underwater"),
  ("Shaft", "Underground Shaft"),
  ("Tunnel", "Underground Tunnel"),
  ("Barge", "Barge Platform"),
  ("Balloon", "Aerial Balloon"),
  ("Rocket", "Missile Launch"),
  ("Ship", "Naval Vessel"),
  ("Crater", "Surface Crater")]

/-! ## Raw and cleaned rows -/

/-- One raw CSV row after `pd.read_csv` and the column renaming of
lines 61-68.  Field names follow the renamed columns; `yieldLower` is the
`Data.Yeild.Lower` column renamed to `Yield`, which may be NaN (missing)
in the file, hence `Option ℚ`. -/
structure RawRow where
  country : String
  purpose : String
  typeCode : String
  year : Int
  month : Int
  day : Int
  latitude : ℚ
  longitude : ℚ
  yieldLower : Option ℚ
deriving DecidableEq

/-- A calendar date as assembled by `pd.to_datetime` from year/month/day
components (time-of-day is always midnight here). -/
structure SimpleDate where
  year : Int
  month : Int
  day : Int
deriving DecidableEq

/-- Timestamp ordering restricted to dates: lexicographic on
(year, month, day). -/
def dateLEb (a b : SimpleDate) : Bool :=
  if a.year = b.year then
    if a.month = b.month then a.day ≤ b.day
    else a.month < b.month
  else a.year < b.year

/-- Gregorian leap-year rule used by the datetime library. -/
def isLeapYear (y : Int) : Bool :=
  y % 4 = 0 && (y % 100 ≠ 0 || y % 400 = 0)

def daysInMonth (y m : Int) : Int :=
  if m = 2 then (if isLeapYear y then 29 else 28)
  else if m = 4 || m = 6 || m = 9 || m = 11 then 30
  else 31

/-- Whether (y, m, d) is a calendar date `pd.to_datetime` can assemble:
valid Gregorian components within the representable Timestamp range
(midnight timestamps from 1677-09-22 through 2262-04-11). -/
def isValidDate (y m d : Int) : Bool :=
  (1 ≤ m && m ≤ 12) &&
  (1 ≤ d && d ≤ daysInMonth y m) &&
  dateLEb ⟨1677, 9, 22⟩ ⟨y, m, d⟩ &&
  dateLEb ⟨y, m, d⟩ ⟨2262, 4, 11⟩

/-- The single load-time failure the pipeline can hit: `pd.to_datetime`
(line 71, default `errors="raise"`) raising on components that do not form
a valid calendar date. -/
inductive LoadErr where
  | invalidDate
deriving DecidableEq

/-- `pd.to_datetime` on one row of year/month/day components: returns the
assembled date, or raises when the components are not a valid date.  The
source call uses the default `errors="raise"`; nothing coerces failures
to NaT. -/
def toDatetime (y m d : Int) : Except LoadErr SimpleDate :=
  if isValidDate y m d then Except.ok ⟨y, m, d⟩
  else Except.error LoadErr.invalidDate

/-- One cleaned record (row of the enriched DataFrame built by
`load_and_clean_data`).  `TypeCode` is the source column `Type` (the name
`Type` is reserved in Lean).  `Date` is `Option` because the comparison
semantics of the filter treat NaT specially, though the loader itself
only ever produces `some`. -/
structure Record where
  Country : String
  Purpose : String
  Purpose_Label : String
  TypeCode : String
  Type_Label : String
  Date : Option SimpleDate
  Year : Int
  Decade : Int
  Latitude : ℚ
  Longitude : ℚ
  Yield : Option ℚ
deriving DecidableEq

/-- `Series.map(dict).fillna("Other")` for one cell: dictionary lookup
with fallback to "Other" for keys absent from the dictionary. -/
def mapWithFallback (dict : List (String × String)) (code : String) : String :=
  (List.lookup code dict).getD "Other"

/-- One row of `load_and_clean_data` (src/final.py lines 57-86) after the
renaming: assemble `Date` (raising on invalid components), derive `Year`
and `Decade = (Year // 10) * 10` (Python floor division), map the three
categorical codes through their dictionaries with fallback "Other", and
carry `Yield` over unchanged (the source applies no fillna/clip/astype to
it). -/
def cleanRow (r : RawRow) : Except LoadErr Record :=
  match toDatetime r.year r.month r.day with
  | Except.error e => Except.error e
  | Except.ok d => Except.ok {
    Country := mapWithFallback COUNTRIES r.country
    Purpose := r.purpose
    Purpose_Label := mapWithFallback PURPOSE_DICT r.purpose
    TypeCode := r.typeCode
    Type_Label := mapWithFallback TYPE_DICT r.typeCode
    Date := some d
    Year := d.year
    Decade := (Int.fdiv d.year 10) * 10
    Latitude := r.latitude
    Longitude := r.longitude
    Yield := r.yieldLower }

/-- `load_and_clean_data` over the whole table, row-wise.  The column
operations of the source are elementwise, so the first row whose date
components cannot be assembled aborts the load with the raised error. -/
def load_and_clean_data : List RawRow → Except LoadErr (List Record)
  | [] => Except.ok []
  | r :: rs =>
    match cleanRow r with
    | Except.error e => Except.error e
    | Except.ok c =>
      match load_and_clean_data rs with
      | Except.error e => Except.error e
      | Except.ok cs => Except.ok (c :: cs)

/-! ## Filter engine (src/final.py lines 150-160) -/

/-- The conjunction of the three `isin` masks of lines 150-154 for one
row: keep the row when its country, purpose label and type label each lie
in the corresponding selected list. -/
def categorical_mask (cs ps ts : List String) (r : Record) : Bool :=
  cs.contains r.Country && ps.contains r.Purpose_Label && ts.contains r.Type_Label

/-- The date-range mask of lines 157-160 for one row:
`(Date >= lo) & (Date <= hi)`.  A NaT (`none`) date compares false in
pandas, so a missing date fails the mask. -/
def dateInRange (lo hi : SimpleDate) (r : Record) : Bool :=
  match r.Date with
  | none => false
  | some d => dateLEb lo d && dateLEb d hi

/-- The whole filtering block of `main`: the categorical mask is applied
first; the date-range mask is applied only when a complete range was
selected (`len(selected_dates) == 2`), modelled as `dr = some (lo, hi)`. -/
def filter_pipeline (cs ps ts : List String) (dr : Option (SimpleDate × SimpleDate))
    (df : List Record) : List Record :=
  let fd := df.filter (categorical_mask cs ps ts)
  match dr with
  | some (lo, hi) => fd.filter (dateInRange lo hi)
  | none => fd

/-- Applying a list of boolean-mask predicates one after the other, each
producing a fresh filtered view of the previous one. -/
def applyFilters (preds : List (Record → Bool)) (df : List Record) : List Record :=
  match preds with
  | [] => df
  | p :: ps => applyFilters ps (df.filter p)

def countryPred (cs : List String) (r : Record) : Bool := cs.contains r.Country

def purposePred (ps : List String) (r : Record) : Bool := ps.contains r.Purpose_Label

def typePred (ts : List String) (r : Record) : Bool := ts.contains r.Type_Label

/-! ## Aggregator (src/final.py lines 192, 208-210) -/

/-- `Series.mean()` with the default `skipna=True`: the mean of the
non-NaN entries, and NaN (here `none`) when there are none — in
particular on an empty series.  It never raises. -/
def seriesMean (ys : List (Option ℚ)) : Option ℚ :=
  let vs := ys.filterMap id
  if vs.length = 0 then none else some (vs.sum / (vs.length : ℚ))

/-- `Series.max()` with the default `skipna=True`: the maximum of the
non-NaN entries, NaN (`none`) when there are none.  Never raises. -/
def seriesMax (ys : List (Option ℚ)) : Option ℚ :=
  (ys.filterMap id).max?

/-- The three summary statistics of lines 208-210: `len(filtered_df)`,
`filtered_df["Yield"].mean()` and `filtered_df["Yield"].max()`. -/
def summary (view : List Record) : Nat × Option ℚ × Option ℚ :=
  (view.length, seriesMean (view.map Record.Yield), seriesMax (view.map Record.Yield))

/-- Distinct values of a series in order of first appearance — the
hashtable ordering `value_counts` starts from. -/
def distinctInOrder (l : List String) : List String :=
  l.foldl (fun acc x => if x ∈ acc then acc else acc ++ [x]) []

/-- Label/count pairs before sorting: one entry per distinct label, in
first-appearance order. -/
def rawCounts (l : List String) : List (String × Nat) :=
  (distinctInOrder l).map (fun c => (c, l.count c))

/-- Stable insertion for a descending-by-count sort: the inserted pair
goes before every already-placed pair of equal or smaller count (pairs
inserted earlier came later in the pre-sort order). -/
def insertByCount (x : String × Nat) : List (String × Nat) → List (String × Nat)
  | [] => [x]
  | y :: ys => if y.2 ≤ x.2 then x :: y :: ys else y :: insertByCount x ys

/-- `sort_values(ascending=False)` on a label→count series, modelled as a
stable sort by descending count (ties keep their pre-sort order). -/
def sortByCountDesc (l : List (String × Nat)) : List (String × Nat) :=
  l.foldr insertByCount []

/-- `Series.value_counts()` (default `sort=True`): counts per distinct
value, sorted by descending count. -/
def value_counts (l : List String) : List (String × Nat) :=
  sortByCountDesc (rawCounts l)

/-- Line 192: `df["Country"].value_counts().sort_values(ascending=False)`
— the by-country count aggregate (the second sort re-sorts the already
sorted series). -/
def country_counts (df : List Record) : List (String × Nat) :=
  sortByCountDesc (value_counts (df.map Record.Country))

/-- Lexicographic (alphabetical) order on character lists, by code
point. -/
def charListLE : List Char → List Char → Bool
  | [], _ => true
  | _ :: _, [] => false
  | a :: as, b :: bs => if a = b then charListLE as bs else decide (a < b)

/-- Alphabetical order on labels. -/
def alphaLE (s t : String) : Bool := charListLE s.data t.data

/-- The ordering the specification asserts for `country_counts`:
strictly more frequent labels first, and equal counts in alphabetical
label order. -/
def claimTieOrder (a b : String × Nat) : Prop :=
  b.2 < a.2 ∨ (a.2 = b.2 ∧ alphaLE a.1 b.1 = true)

/-! ## Dashboard session (for the no-mutation claim) -/

/-- The state a dashboard session holds between user interactions: the
base DataFrame produced once by `load_and_clean_data`. -/
structure DashState where
  base : List Record
deriving DecidableEq

/-- One filter request: the sidebar selections of one interaction. -/
structure Query where
  countries : List String
  purposes : List String
  types : List String
  dates : Option (SimpleDate × SimpleDate)

/-- One user interaction: build `filtered_df` from the base set with
boolean-mask indexing.  Pandas mask indexing returns a new frame, so the
session state is returned unchanged alongside the fresh view. -/
def runQuery (st : DashState) (q : Query) : List Record × DashState :=
  (filter_pipeline q.countries q.purposes q.types q.dates st.base, st)

/-- A whole session: a sequence of interactions against the state,
collecting each interaction's view. -/
def runSession : DashState → List Query → List (List Record) × DashState
  | st, [] => ([], st)
  | st, q :: qs =>
    let (v, st1) := runQuery st q
    let (vs, st2) := runSession st1 qs
    (v :: vs, st2)

/-! ## The mortgage script (src/morgage.py) -/

instance {ε α : Type} [DecidableEq ε] [DecidableEq α] : DecidableEq (Except ε α) :=
  fun a b =>
    match a, b with
    | Except.ok x, Except.ok y =>
      if h : x = y then isTrue (by rw [h])
      else isFalse (by intro hc; cases hc; exact h rfl)
    | Except.error x, Except.error y =>
      if h : x = y then isTrue (by rw [h])
      else isFalse (by intro hc; cases hc; exact h rfl)
    | Except.ok x, Except.error y => isFalse (by intro hc; cases hc)
    | Except.error x, Except.ok y => isFalse (by intro hc; cases hc)

/-- A Python value as the script handles them: `None`, a number, or a
string (the `else` branch binds `pmt` to the raw `input` string). -/
inductive PyVal where
  | none
  | num (q : ℚ)
  | str (s : String)
deriving DecidableEq

/-- Exceptions the script's arithmetic can raise.  `unmodeledPow` flags a
float power outside the model (non-integer exponent); the claims are
settled away from it. -/
inductive PyErr where
  | zeroDivision
  | unmodeledPow
deriving DecidableEq

/-- Python `b ** e` on floats, modelled for integer exponents: a
non-negative exponent is iterated multiplication (`0.0 ** 0.0 = 1.0` as
in Python), a negative exponent is the reciprocal, and `0.0` raised to a
negative exponent raises ZeroDivisionError. -/
def pypow (b e : ℚ) : Except PyErr ℚ :=
  if e.den = 1 then
    if 0 ≤ e.num then Except.ok (b ^ e.num.toNat)
    else if b = 0 then Except.error PyErr.zeroDivision
    else Except.ok (1 / b ^ (-e.num).toNat)
  else Except.error PyErr.unmodeledPow

/-- Python `str.lower()`: lowercase every character. -/
def pyLower (s : String) : String := String.mk (s.data.map Char.toLower)

/-- Python `a / b`: raises ZeroDivisionError when `b = 0`. -/
def pydiv (a b : ℚ) : Except PyErr ℚ :=
  if b = 0 then Except.error PyErr.zeroDivision else Except.ok (a / b)

/-- `calc_pmt(pv, r, n)` (src/morgage.py lines 2-3).  The body computes
`pmt = (PV*r)/(((1/(1+r)**(n*12)))-1)` — note it reads the module-level
global `PV` (passed here as `PV`), not its parameter `pv`, which is
unused — and then falls off the end without a return statement, so a
normal return yields Python `None`. -/
def calc_pmt (PV pv r n : ℚ) : Except PyErr PyVal :=
  match pypow (1 + r) (n * 12) with
  | Except.error e => Except.error e
  | Except.ok p =>
    match pydiv 1 p with
    | Except.error e => Except.error e
    | Except.ok inv =>
      match pydiv (PV * r) (inv - 1) with
      | Except.error e => Except.error e
      | Except.ok _pmt => Except.ok PyVal.none

/-- The lines the script can print.  `paymentsInfo` is line 15's
"There will be ... payments" message; the three schedule events are the
header lines `schedule` would print if it were ever called. -/
inductive OutEvent where
  | paymentsInfo
  | scheduleSep
  | scheduleTitle
  | scheduleColumns
deriving DecidableEq

/-- What one call of `schedule` (lines 5-9) would print: the separator,
the title line and the column header.  No call site exists in the
script. -/
def schedule_output (pv r n pmt : ℚ) : List OutEvent :=
  [OutEvent.scheduleSep, OutEvent.scheduleTitle, OutEvent.scheduleColumns]

/-- The module body (lines 12-20) for one run: read the cost, interest
and years inputs, print the payments message, and bind `pmt` — via
`calc_pmt(PV, interest, n)` when the answer lowercases to "no", else to
the raw string read from input.  Returns the printed lines together with
the run's outcome (the final value of `pmt`, or the raised exception). -/
def mortgage_script (cost interest years : ℚ) (pmtnec : String) (pmtAnswer : String) :
    List OutEvent × Except PyErr PyVal :=
  let PV := cost
  let n := 12 * years
  let outcome :=
    if pyLower pmtnec = "no" then calc_pmt PV PV interest n
    else Except.ok (PyVal.str pmtAnswer)
  ([OutEvent.paymentsInfo], outcome)

/-! ## Concrete rows used by counterexamples and witnesses

The first two mirror the spec's worked example (a 1945 United States
detonation of yield 21 and a 1949 Soviet detonation of yield 22). -/

def rawUSA : RawRow :=
  ⟨"USA", "Combat", "Airdrop", 1945, 7, 16, 33, -106, some 21⟩

def rawUSSR : RawRow :=
  ⟨"USSR", "Wr", "Tower", 1949, 8, 29, 50, 78, some 22⟩

/-- A row whose `Data.Yeild.Lower` cell is empty (NaN after read_csv). -/
def rawNoYield : RawRow :=
  ⟨"USA", "Wr", "Tower", 1951, 1, 27, 37, -116, Option.none⟩

/-- A row carrying a negative yield value. -/
def rawNegYield : RawRow :=
  ⟨"UK", "We", "Surface", 1952, 10, 3, -20, 115, some (-5)⟩

/-- A row whose date components are not a valid calendar date (month 13). -/
def rawBadDate : RawRow :=
  ⟨"USA", "Wr", "Shaft", 1958, 13, 1, 37, -116, some 4⟩

/-- A row none of whose three categorical codes appears in its
dictionary. -/
def rawUnmapped : RawRow :=
  ⟨"PAKIST", "Xx", "Yy", 1998, 5, 28, 28, 64, some 9⟩

/-- The cleaned record `cleanRow rawUSA` produces. -/
def recUSA : Record :=
  ⟨"United States", "Combat", "Combat", "Airdrop", "Airplane Deployed",
    some ⟨1945, 7, 16⟩, 1945, 1940, 33, -106, some 21⟩

/-- The cleaned record `cleanRow rawUSSR` produces. -/
def recUSSR : Record :=
  ⟨"Soviet Union", "Wr", "Weapons development", "Tower", "Constructed Tower",
    some ⟨1949, 8, 29⟩, 1949, 1940, 50, 78, some 22⟩

/-- The spec's two-record example dataset, in file order. -/
def demoDF : List Record := [recUSA, recUSSR]

/-- A record whose yield is a genuine (defined) zero. -/
def recZeroYield : Record :=
  ⟨"France", "Wr", "Weapons development", "Atmosph", "Atmospheric",
    some ⟨1960, 2, 13⟩, 1960, 1960, 26, 0, some 0⟩

/-- The cleaned record `cleanRow rawUnmapped` produces: every categorical
label fell back to "Other". -/
def recUnmapped : Record :=
  ⟨"Other", "Xx", "Other", "Yy", "Other",
    some ⟨1998, 5, 28⟩, 1998, 1990, 28, 64, some 9⟩

/-! ## Loader lemmas -/

/-- The loader carries the yield cell over unchanged, row-wise. -/
theorem cleanRow_yield (r : RawRow) (c : Record) (h : cleanRow r = Except.ok c) :
    c.Yield = r.yieldLower := by
  unfold cleanRow at h
  cases hd : toDatetime r.year r.month r.day with
  | error e => rw [hd] at h; cases h
  | ok d => rw [hd] at h; cases h; rfl

/-- Claim C1 — counterexample.  The claim says every loaded record's
yield is defined and non-negative (missing filled with 0.0).  Loading a
row whose yield cell is missing and a row whose yield is -5 succeeds and
leaves both values untouched: the first cleaned record's yield is still
missing, the second still negative. -/
theorem C1_counterexample :
    Except.map (List.map Record.Yield) (load_and_clean_data [rawNoYield, rawNegYield]) =
      Except.ok [Option.none, some (-5)] := rfl

/-- Claim C1 — amended.  `load_and_clean_data` does not fill or coerce
the yield column at all: whenever the load succeeds, each cleaned
record's `Yield` equals the raw row's `Data.Yeild.Lower` value unchanged,
so missing yields stay missing and negative yields stay negative. -/
theorem C1_amended (rows : List RawRow) (recs : List Record)
    (h : load_and_clean_data rows = Except.ok recs) :
    recs.map Record.Yield = rows.map RawRow.yieldLower := by
  induction rows generalizing recs with
  | nil =>
    unfold load_and_clean_data at h
    cases h
    rfl
  | cons r rs ih =>
    unfold load_and_clean_data at h
    cases hc : cleanRow r with
    | error e => rw [hc] at h; cases h
    | ok c =>
      rw [hc] at h
      cases hl : load_and_clean_data rs with
      | error e => rw [hl] at h; cases h
      | ok cs =>
        rw [hl] at h
        cases h
        simp [cleanRow_yield r c hc, ih cs hl]

/-- Witness for C1_amended at the spec's two-record example. -/
theorem C1_witness :
    load_and_clean_data [rawUSA, rawUSSR] = Except.ok [recUSA, recUSSR] ∧
    [recUSA, recUSSR].map Record.Yield = [rawUSA, rawUSSR].map RawRow.yieldLower :=
  ⟨rfl, C1_amended [rawUSA, rawUSSR] [recUSA, recUSSR] rfl⟩

/-- Claim C2 — counterexample.  The claim says building `date` never
raises and invalid component rows get a missing-date marker while the
load completes.  A single row with month 13 makes the whole load return
the raised invalid-date error: no record set is produced at all. -/
theorem C2_counterexample :
    load_and_clean_data [rawBadDate] = Except.error LoadErr.invalidDate := rfl

/-- Claim C2 — amended.  `pd.to_datetime` is called with its default
`errors="raise"`, so any row whose year/month/day components do not form
a valid calendar date aborts the whole load with the invalid-date error;
no missing-date marker is ever stored. -/
theorem C2_amended (rows : List RawRow) (r : RawRow) (hmem : r ∈ rows)
    (hbad : isValidDate r.year r.month r.day = false) :
    load_and_clean_data rows = Except.error LoadErr.invalidDate := by
  induction rows with
  | nil => cases hmem
  | cons x xs ih =>
    rcases List.mem_cons.mp hmem with h | h
    · subst h
      have hc : cleanRow r = Except.error LoadErr.invalidDate := by
        unfold cleanRow toDatetime
        rw [hbad]
        rfl
      unfold load_and_clean_data
      rw [hc]
    · cases hc : cleanRow x with
      | error e =>
        cases e
        unfold load_and_clean_data
        rw [hc]
      | ok c =>
        unfold load_and_clean_data
        rw [hc, ih h]

/-- Witness for C2_amended: the bad-date row is in the singleton table
and its components are invalid, and the load indeed errors. -/
theorem C2_witness :
    rawBadDate ∈ [rawBadDate] ∧
    isValidDate rawBadDate.year rawBadDate.month rawBadDate.day = false ∧
    load_and_clean_data [rawBadDate] = Except.error LoadErr.invalidDate :=
  ⟨List.mem_cons_self rawBadDate [], by decide,
    C2_amended [rawBadDate] rawBadDate (List.mem_cons_self rawBadDate []) (by decide)⟩

/-- Claim C6 — confirmed.  The three categorical columns are mapped with
`Series.map(dict).fillna("Other")`: for any cleaned record whose raw
codes are absent from their dictionaries, every mapped label equals the
fallback constant "Other"; the mapping step itself can never fail (the
lookup-with-default is total). -/
theorem C6_fallback_labels (r : RawRow) (c : Record) (h : cleanRow r = Except.ok c)
    (hc : List.lookup r.country COUNTRIES = Option.none)
    (hp : List.lookup r.purpose PURPOSE_DICT = Option.none)
    (ht : List.lookup r.typeCode TYPE_DICT = Option.none) :
    c.Country = "Other" ∧ c.Purpose_Label = "Other" ∧ c.Type_Label = "Other" := by
  unfold cleanRow at h
  cases hd : toDatetime r.year r.month r.day with
  | error e => rw [hd] at h; cases h
  | ok d =>
    rw [hd] at h
    cases h
    refine ⟨?_, ?_, ?_⟩ <;> simp [mapWithFallback, hc, hp, ht]

/-- Witness for C6_fallback_labels at a row with three unmapped codes. -/
theorem C6_witness :
    cleanRow rawUnmapped = Except.ok recUnmapped ∧
    List.lookup rawUnmapped.country COUNTRIES = Option.none ∧
    List.lookup rawUnmapped.purpose PURPOSE_DICT = Option.none ∧
    List.lookup rawUnmapped.typeCode TYPE_DICT = Option.none ∧
    (recUnmapped.Country = "Other" ∧ recUnmapped.Purpose_Label = "Other" ∧
      recUnmapped.Type_Label = "Other") :=
  ⟨rfl, by decide, by decide, by decide,
    C6_fallback_labels rawUnmapped recUnmapped rfl (by decide) (by decide) (by decide)⟩

/-! ## Aggregation lemmas -/

theorem filterMap_yield_zero (w : List Record) (hz : ∀ r ∈ w, r.Yield = some 0) :
    (w.map Record.Yield).filterMap id = List.replicate w.length (0 : ℚ) := by
  induction w with
  | nil => rfl
  | cons a as ih =>
    have ha := hz a (List.mem_cons_self a as)
    have has : ∀ r ∈ as, r.Yield = some 0 := fun r hr => hz r (List.mem_cons_of_mem a hr)
    simp [ha, ih has, List.replicate_succ]

theorem foldl_max_replicate_zero (k : Nat) :
    List.foldl max (0 : ℚ) (List.replicate k 0) = 0 := by
  induction k with
  | zero => rfl
  | succ k ih => simpa [List.replicate_succ] using ih

theorem max?_cons_eq (a : ℚ) (l : List ℚ) : (a :: l).max? = some (l.foldl max a) := rfl

theorem max?_elim_replicate_zero (k : Nat) :
    (List.replicate k (0 : ℚ)).max?.elim (0 : ℚ) (max 0) = 0 := by
  cases k with
  | zero => rfl
  | succ j =>
    rw [List.replicate_succ, max?_cons_eq, foldl_max_replicate_zero]
    exact max_self 0

/-- Claim C3 — confirmed.  Aggregation over an empty filtered view never
raises (the model statistics are total functions): the count is 0 and
both yield statistics are the explicit undefined value `none` (pandas
NaN).  This is distinguishable from a genuine zero-yield dataset, whose
statistics are the defined value `some 0`. -/
theorem C3_empty_aggregation (cs ps ts : List String)
    (dr : Option (SimpleDate × SimpleDate)) (df : List Record) (w : List Record)
    (hempty : filter_pipeline cs ps ts dr df = [])
    (hw : w ≠ []) (hz : ∀ r ∈ w, r.Yield = some 0) :
    summary (filter_pipeline cs ps ts dr df) = (0, Option.none, Option.none) ∧
    summary w = (w.length, some 0, some 0) := by
  constructor
  · rw [hempty]; rfl
  · have hvs := filterMap_yield_zero w hz
    have hlen : w.length ≠ 0 := by
      cases w with
      | nil => cases hw rfl
      | cons a as => simp
    unfold summary seriesMean seriesMax
    rw [hvs]
    cases hn : w.length with
    | zero => cases hlen hn
    | succ k =>
      simp [List.sum_replicate, List.replicate_succ, max?_cons_eq, foldl_max_replicate_zero]
      exact max?_elim_replicate_zero k

/-- Witness for C3_empty_aggregation: the empty-country selection empties
the view of the demo dataset, and a singleton zero-yield dataset has
defined zero statistics. -/
theorem C3_witness :
    filter_pipeline [] [] [] Option.none demoDF = [] ∧
    ([recZeroYield] : List Record) ≠ [] ∧
    (∀ r ∈ ([recZeroYield] : List Record), r.Yield = some 0) ∧
    (summary (filter_pipeline [] [] [] Option.none demoDF) = (0, Option.none, Option.none) ∧
      summary [recZeroYield] = ([recZeroYield].length, some 0, some 0)) :=
  ⟨rfl, by decide, by decide,
    C3_empty_aggregation [] [] [] Option.none demoDF [recZeroYield] rfl (by decide) (by decide)⟩

/-- Claim C5 — confirmed.  With an active range, the date mask of lines
157-160 keeps exactly the records of the categorically filtered view
whose date is defined and lies between the inclusive bounds; every
record with a missing (NaT) date fails both comparisons and is
excluded. -/
theorem C5_date_range_filter (cs ps ts : List String) (lo hi : SimpleDate)
    (df : List Record) (r : Record) :
    r ∈ filter_pipeline cs ps ts (some (lo, hi)) df ↔
      (r ∈ df.filter (categorical_mask cs ps ts) ∧
        ∃ d, r.Date = some d ∧ dateLEb lo d = true ∧ dateLEb d hi = true) := by
  unfold filter_pipeline
  cases hD : r.Date with
  | none => simp [List.mem_filter, dateInRange, hD]
  | some d =>
    simp only [List.mem_filter, dateInRange, hD, Bool.and_eq_true, Option.some.injEq]
    constructor
    · rintro ⟨⟨hmem, hcat⟩, h1, h2⟩
      exact ⟨⟨hmem, hcat⟩, d, rfl, h1, h2⟩
    · rintro ⟨⟨hmem, hcat⟩, e, he, h1, h2⟩
      cases he
      exact ⟨⟨hmem, hcat⟩, h1, h2⟩

/-! ## Sorting lemmas for the by-country counts -/

theorem insertByCount_sorted (x : String × Nat) (l : List (String × Nat))
    (h : List.Chain' (fun a b => b.2 ≤ a.2) l) :
    List.Chain' (fun a b => b.2 ≤ a.2) (insertByCount x l) := by
  induction l with
  | nil => simp [insertByCount]
  | cons y ys ih =>
    rw [insertByCount]
    by_cases hc : y.2 ≤ x.2
    · rw [if_pos hc]
      exact List.chain'_cons.mpr ⟨hc, h⟩
    · rw [if_neg hc]
      rw [List.chain'_cons']
      refine ⟨?_, ih h.tail⟩
      intro z hz
      cases ys with
      | nil =>
        simp [insertByCount] at hz
        subst hz
        exact le_of_not_le hc
      | cons u us =>
        rw [insertByCount] at hz
        by_cases hu : u.2 ≤ x.2
        · rw [if_pos hu] at hz
          simp at hz
          subst hz
          exact le_of_not_le hc
        · rw [if_neg hu] at hz
          simp at hz
          subst hz
          exact (List.chain'_cons.mp h).1

theorem filter_insertByCount (x : String × Nat) (l : List (String × Nat)) (k : Nat) :
    (insertByCount x l).filter (fun p => p.2 == k) =
      if x.2 = k then x :: l.filter (fun p => p.2 == k)
      else l.filter (fun p => p.2 == k) := by
  induction l with
  | nil => by_cases hx : x.2 = k <;> simp [insertByCount, List.filter_cons, hx]
  | cons y ys ih =>
    rw [insertByCount]
    by_cases hc : y.2 ≤ x.2
    · rw [if_pos hc]
      by_cases hx : x.2 = k <;> by_cases hy : y.2 = k <;>
        simp [List.filter_cons, hx, hy]
    · rw [if_neg hc]
      by_cases hx : x.2 = k
      · have hy : ¬ y.2 = k := by omega
        simp [List.filter_cons, hx, hy, ih]
      · by_cases hy : y.2 = k <;> simp [List.filter_cons, hx, hy, ih]

theorem filter_sortByCountDesc (l : List (String × Nat)) (k : Nat) :
    (sortByCountDesc l).filter (fun p => p.2 == k) = l.filter (fun p => p.2 == k) := by
  induction l with
  | nil => rfl
  | cons x xs ih =>
    show (insertByCount x (sortByCountDesc xs)).filter _ = _
    rw [filter_insertByCount]
    by_cases hx : x.2 = k <;> simp [List.filter_cons, hx, ih]

theorem sortByCountDesc_sorted (l : List (String × Nat)) :
    List.Chain' (fun a b => b.2 ≤ a.2) (sortByCountDesc l) := by
  induction l with
  | nil => simp [sortByCountDesc]
  | cons x xs ih =>
    show List.Chain' _ (insertByCount x (sortByCountDesc xs))
    exact insertByCount_sorted x _ ih

/-- Claim C4 — counterexample.  On the spec's own two-record example the
by-country aggregate is `[("United States", 1), ("Soviet Union", 1)]`
(first-appearance order), which is not sorted with the claimed
alphabetical tie-break: "Soviet Union" precedes "United States"
alphabetically but follows it in the output. -/
theorem C4_counterexample :
    country_counts demoDF = [("United States", 1), ("Soviet Union", 1)] ∧
    ¬ List.Chain' claimTieOrder (country_counts demoDF) := by
  refine ⟨rfl, ?_⟩
  intro hch
  rw [show country_counts demoDF = [("United States", 1), ("Soviet Union", 1)] from rfl]
    at hch
  rcases (List.chain'_cons.mp hch).1 with h | ⟨h2, h3⟩
  · exact absurd h (by decide)
  · exact absurd h3 (by decide)

/-- Claim C4 — amended.  The by-country aggregate is sorted by
descending count, but the tie-break is not alphabetical: labels with
equal counts keep the order in which they first appear in the dataset
(the sort is stable over `value_counts`' first-appearance order). -/
theorem C4_amended (df : List Record) (k : Nat) :
    List.Chain' (fun a b : String × Nat => b.2 ≤ a.2) (country_counts df) ∧
    (country_counts df).filter (fun p => p.2 == k) =
      (rawCounts (df.map Record.Country)).filter (fun p => p.2 == k) := by
  unfold country_counts value_counts
  exact ⟨sortByCountDesc_sorted _,
    by rw [filter_sortByCountDesc, filter_sortByCountDesc]⟩

/-! ## Filter-order lemmas -/

theorem applyFilters_eq_filter (preds : List (Record → Bool)) (l : List Record) :
    applyFilters preds l = l.filter (fun r => preds.all (fun p => p r)) := by
  induction preds generalizing l with
  | nil => simp [applyFilters]
  | cons p ps ih =>
    rw [show applyFilters (p :: ps) l = applyFilters ps (l.filter p) from rfl, ih,
      List.filter_filter]
    apply List.filter_congr
    intro x hx
    simp [List.all_cons, Bool.and_comm]

theorem all_eq_of_perm {α : Type} (l1 l2 : List α) (h : l1.Perm l2) (g : α → Bool) :
    l1.all g = l2.all g := by
  cases hb : l1.all g with
  | true =>
    symm
    rw [List.all_eq_true] at hb ⊢
    intro x hx
    exact hb x (h.mem_iff.mpr hx)
  | false =>
    symm
    rw [List.all_eq_false] at hb ⊢
    obtain ⟨x, hx, hgx⟩ := hb
    exact ⟨x, h.mem_iff.mp hx, hgx⟩

theorem filter_pipeline_eq_applyFilters (cs ps ts : List String) (lo hi : SimpleDate)
    (l : List Record) :
    filter_pipeline cs ps ts (some (lo, hi)) l =
      applyFilters [countryPred cs, purposePred ps, typePred ts, dateInRange lo hi] l := by
  show (l.filter (categorical_mask cs ps ts)).filter (dateInRange lo hi) = _
  rw [applyFilters_eq_filter, List.filter_filter]
  apply List.filter_congr
  intro x hx
  simp only [categorical_mask, countryPred, purposePred, typePred, List.all_cons,
    List.all_nil, Bool.and_true]
  cases dateInRange lo hi x <;> cases cs.contains x.Country <;>
    cases ps.contains x.Purpose_Label <;> cases ts.contains x.Type_Label <;> rfl

/-- Claim C7 — confirmed.  The four filter predicates of lines 150-160
commute: applying them one at a time in any order yields the same
filtered subset as the source's pipeline (categorical conjunction first,
then the date range); predicates combine by logical AND, which is
order-independent. -/
theorem C7_filter_order_independent (cs ps ts : List String) (lo hi : SimpleDate)
    (l : List Record) (perm : List (Record → Bool))
    (h : perm.Perm [countryPred cs, purposePred ps, typePred ts, dateInRange lo hi]) :
    applyFilters perm l = filter_pipeline cs ps ts (some (lo, hi)) l := by
  rw [filter_pipeline_eq_applyFilters, applyFilters_eq_filter, applyFilters_eq_filter]
  apply List.filter_congr
  intro x hx
  exact all_eq_of_perm _ _ h (fun p => p x)

def demoLo : SimpleDate := ⟨1945, 1, 1⟩

def demoHi : SimpleDate := ⟨1950, 12, 31⟩

/-- Witness for C7: purpose-then-country order equals the pipeline's
country-then-purpose order on the demo dataset. -/
theorem C7_witness :
    List.Perm
      [purposePred ["Combat"], countryPred ["United States"],
        typePred ["Airplane Deployed"], dateInRange demoLo demoHi]
      [countryPred ["United States"], purposePred ["Combat"],
        typePred ["Airplane Deployed"], dateInRange demoLo demoHi] ∧
    applyFilters
        [purposePred ["Combat"], countryPred ["United States"],
          typePred ["Airplane Deployed"], dateInRange demoLo demoHi] demoDF =
      filter_pipeline ["United States"] ["Combat"] ["Airplane Deployed"]
        (some (demoLo, demoHi)) demoDF :=
  ⟨List.Perm.swap _ _ _,
    C7_filter_order_independent ["United States"] ["Combat"] ["Airplane Deployed"]
      demoLo demoHi demoDF _ (List.Perm.swap _ _ _)⟩

/-- Claim C8 — confirmed.  A session that loads the base set once and
then answers any sequence of filter requests never mutates the base set:
after every sequence of queries the session state still holds exactly
the records `load_and_clean_data` produced (every field unchanged), and
each query's answer is a fresh view computed from that same base set. -/
theorem C8_no_mutation (rows : List RawRow) (df : List Record) (qs : List Query)
    (h : load_and_clean_data rows = Except.ok df) :
    (runSession ⟨df⟩ qs).2 = ⟨df⟩ ∧
    (runSession ⟨df⟩ qs).1 =
      qs.map (fun q => filter_pipeline q.countries q.purposes q.types q.dates df) := by
  clear h
  induction qs with
  | nil => exact ⟨rfl, rfl⟩
  | cons q qt ih =>
    refine ⟨?_, ?_⟩ <;> simp [runSession, runQuery, ih.1, ih.2]

def demoQuery : Query :=
  ⟨["United States"], ["Combat"], ["Airplane Deployed"], Option.none⟩

/-- Witness for C8 on the demo table and a single query. -/
theorem C8_witness :
    load_and_clean_data [rawUSA, rawUSSR] = Except.ok demoDF ∧
    ((runSession ⟨demoDF⟩ [demoQuery]).2 = ⟨demoDF⟩ ∧
      (runSession ⟨demoDF⟩ [demoQuery]).1 =
        [demoQuery].map (fun q =>
          filter_pipeline q.countries q.purposes q.types q.dates demoDF)) :=
  ⟨rfl, C8_no_mutation [rawUSA, rawUSSR] demoDF [demoQuery] rfl⟩

/-! ## The mortgage script claims -/

/-- Claim C9 — counterexample.  The claim says an undefined variable
reference halts every run with an error before any schedule output.  A
run answering "yes" completes normally (no error, `pmt` bound to the
input string), and even a "no" run with 1% interest completes normally:
`PV` inside `calc_pmt` resolves to the module-level global, which is
defined before the call, so no NameError exists. -/
theorem C9_counterexample :
    mortgage_script 100000 5 30 "yes" "1000" =
      ([OutEvent.paymentsInfo], Except.ok (PyVal.str "1000")) ∧
    (mortgage_script 250000 1 1 "no" "").2 = Except.ok PyVal.none := by
  constructor
  · rfl
  · show (if pyLower "no" = "no" then calc_pmt 250000 250000 1 (12 * 1)
        else Except.ok (PyVal.str "")) = Except.ok PyVal.none
    rw [if_pos (show pyLower "no" = "no" from rfl)]
    unfold calc_pmt pypow pydiv
    norm_num
    rw [show Int.toNat (144 : ℤ) = 144 from rfl]
    norm_num

/-- Claim C9 — amended.  The mortgage script never prints any schedule
line on any run — `schedule` is never called, so the only output is the
payments-count message — but not because an undefined variable halts it:
`PV` inside `calc_pmt` resolves to the module-level global defined before
the call, and every run whose payment answer does not lowercase to "no"
completes without error, with `pmt` bound to the raw input string. -/
theorem C9_amended (cost interest years : ℚ) (ans pmtIn : String)
    (hans : pyLower ans ≠ "no") :
    (mortgage_script cost interest years ans pmtIn).1 = [OutEvent.paymentsInfo] ∧
    OutEvent.scheduleTitle ∉ (mortgage_script cost interest years ans pmtIn).1 ∧
    (mortgage_script cost interest years ans pmtIn).2 = Except.ok (PyVal.str pmtIn) := by
  refine ⟨rfl, ?_, ?_⟩
  · intro hmem
    simp [mortgage_script] at hmem
  · show (if pyLower ans = "no" then calc_pmt cost cost interest (12 * years)
        else Except.ok (PyVal.str pmtIn)) = Except.ok (PyVal.str pmtIn)
    rw [if_neg hans]

/-- Witness for C9_amended at a concrete "yes" run. -/
theorem C9_witness :
    pyLower "yes" ≠ "no" ∧
    ((mortgage_script 100000 5 30 "yes" "1000").1 = [OutEvent.paymentsInfo] ∧
      OutEvent.scheduleTitle ∉ (mortgage_script 100000 5 30 "yes" "1000").1 ∧
      (mortgage_script 100000 5 30 "yes" "1000").2 = Except.ok (PyVal.str "1000")) :=
  ⟨by decide, C9_amended 100000 5 30 "yes" "1000" (by decide)⟩

theorem calc_pmt_ok_none (PV pv r n : ℚ) (v : PyVal)
    (h : calc_pmt PV pv r n = Except.ok v) : v = PyVal.none := by
  unfold calc_pmt at h
  split at h
  · cases h
  · split at h
    · cases h
    · split at h
      · cases h
      · cases h
        rfl

/-- Claim C10 — counterexample.  The claim quantifies over every input,
but with interest rate 0 the divisor `(1/(1+r)**(n*12)) - 1` is zero and
`calc_pmt` raises ZeroDivisionError instead of returning None; the "no"
branch of the script then propagates the exception rather than binding
`pmt`. -/
theorem C10_counterexample :
    calc_pmt 100000 100000 0 1 = Except.error PyErr.zeroDivision ∧
    (mortgage_script 100000 0 1 "no" "x").2 = Except.error PyErr.zeroDivision := by
  constructor
  · unfold calc_pmt pypow pydiv
    norm_num
  · show (if pyLower "no" = "no" then calc_pmt 100000 100000 0 (12 * 1)
        else Except.ok (PyVal.str "x")) = Except.error PyErr.zeroDivision
    rw [if_pos (show pyLower "no" = "no" from rfl)]
    unfold calc_pmt pypow pydiv
    norm_num

/-- Claim C10 — amended.  `calc_pmt` computes its payment into a local
and has no return statement, so on every input on which its arithmetic
does not raise it returns Python None; consequently any "no"-answer run
of the script that completes normally binds `pmt` to None rather than a
number. -/
theorem C10_returns_none (PV pv r n : ℚ) (v : PyVal)
    (h : calc_pmt PV pv r n = Except.ok v)
    (c i y : ℚ) (p : String) (w : PyVal)
    (h2 : (mortgage_script c i y "no" p).2 = Except.ok w) :
    v = PyVal.none ∧ w = PyVal.none := by
  refine ⟨calc_pmt_ok_none PV pv r n v h, ?_⟩
  have h3 : (mortgage_script c i y "no" p).2 = calc_pmt c c i (12 * y) := by
    show (if pyLower "no" = "no" then calc_pmt c c i (12 * y)
        else Except.ok (PyVal.str p)) = _
    rw [if_pos (show pyLower "no" = "no" from rfl)]
  rw [h3] at h2
  exact calc_pmt_ok_none c c i (12 * y) w h2

/-- A concrete run of `calc_pmt` whose arithmetic succeeds. -/
theorem calc_pmt_eval_one : calc_pmt 100000 100000 1 1 = Except.ok PyVal.none := by
  unfold calc_pmt pypow pydiv
  norm_num
  rw [show Int.toNat (12 : ℤ) = 12 from rfl]
  norm_num

theorem mortgage_eval_one : (mortgage_script 100000 1 1 "no" "x").2 = Except.ok PyVal.none := by
  show (if pyLower "no" = "no" then calc_pmt 100000 100000 1 (12 * 1)
      else Except.ok (PyVal.str "x")) = Except.ok PyVal.none
  rw [if_pos (show pyLower "no" = "no" from rfl)]
  unfold calc_pmt pypow pydiv
  norm_num
  rw [show Int.toNat (144 : ℤ) = 144 from rfl]
  norm_num

/-- Witness for C10_returns_none at a 100% interest rate, where the
arithmetic succeeds. -/
theorem C10_witness :
    calc_pmt 100000 100000 1 1 = Except.ok PyVal.none ∧
    (mortgage_script 100000 1 1 "no" "x").2 = Except.ok PyVal.none ∧
    (PyVal.none = PyVal.none ∧ PyVal.none = PyVal.none) :=
  ⟨calc_pmt_eval_one, mortgage_eval_one,
    C10_returns_none 100000 100000 1 1 PyVal.none calc_pmt_eval_one
      100000 1 1 "x" PyVal.none mortgage_eval_one⟩

end CS230
